import Mathlib

/-!
Shallow embedding of the lobby / contribution-admission coordinator of the
kzg-ceremony-sequencer (src/api/v1/lobby.rs and src/api/v1/info.rs).

Time (`tokio::time::Instant`) is modelled as `Nat` (seconds); `Duration`
addition is `Nat` addition. The lobby `HashMap` is modelled as an association
list. The `RwLock` acquisitions and the calls to the persistence layer are
modelled as events in an explicit trace, so that ordering claims about them
can be stated.
-/

namespace KzgSequencer

/-- Opaque session identifier (`SessionId` in the Rust source). -/
structure SessionId where
  sid : Nat
deriving DecidableEq, Repr

/-- Per-session bookkeeping (`SessionInfo`; its struct declaration is outside
src, the fields used by lobby.rs are `token.unique_identifier()`,
`is_first_ping_attempt` and `last_ping_time`, here flattened so that
`unique_identifier` models `info.token.unique_identifier()`). -/
structure SessionInfo where
  unique_identifier : String
  is_first_ping_attempt : Bool
  last_ping_time : Nat
deriving DecidableEq, Repr

/-- The lobby map from `SessionId` to `SessionInfo`, modelled as an
association list. -/
abbrev Lobby := List (SessionId × SessionInfo)

/-- Lookup in the lobby (`HashMap::get` / `get_mut` locating the entry). -/
def lobbyGet : Lobby → SessionId → Option SessionInfo
  | [], _ => none
  | (k, v) :: rest, sid => if k = sid then some v else lobbyGet rest sid

/-- In-place mutation of the entry found by `get_mut`: replace the value
stored at the key. -/
def lobbyUpdate : Lobby → SessionId → SessionInfo → Lobby
  | [], _, _ => []
  | (k, v) :: rest, sid, info =>
    if k = sid then (k, info) :: lobbyUpdate rest sid info
    else (k, v) :: lobbyUpdate rest sid info

/-- Removal of a key from the lobby (`HashMap::remove`). -/
def lobbyErase : Lobby → SessionId → Lobby
  | [], _ => []
  | (k, v) :: rest, sid =>
    if k = sid then lobbyErase rest sid else (k, v) :: lobbyErase rest sid

/-- The coordinator state behind the `RwLock` (`AppState`): the lobby, the
single contribution slot `participant` and the completed-contribution
counter. The slot holds the occupant session id and, per the spec's data
model, the occupant's `unique_identifier`. -/
structure AppState where
  lobby : Lobby
  participant : Option (SessionId × String)
  num_contributions : Nat
deriving DecidableEq, Repr

/-- Modelled from the spec: `set_current_contributor`, a method of the
coordinator state whose body is outside src (lobby.rs only calls it).
Spec 4.3 step 4: remove the session from the Lobby, place
`(session_id, unique_identifier)` into the ContributionSlot. -/
def AppState.set_current_contributor (s : AppState) (session_id : SessionId) : AppState :=
  { s with
    lobby := lobbyErase s.lobby session_id
    participant :=
      some (session_id,
        ((lobbyGet s.lobby session_id).map SessionInfo.unique_identifier).getD "") }

/-- Modelled from the spec: `clear_current_contributor`, a method of the
coordinator state whose body is outside src (lobby.rs only calls it).
Spec 4.4: clear the ContributionSlot. -/
def AppState.clear_current_contributor (s : AppState) : AppState :=
  { s with participant := none }

/-- The caller-visible error taxonomy of `try_contribute`. -/
inductive TryContributeError
  | UnknownSessionId
  | RateLimited
  | AnotherContributionInProgress
deriving DecidableEq, Repr

/-- JSON response bodies produced by the two handlers, modelled by shape:
a single `error` field, a single `message` field, or the status record. -/
inductive Body
  | errorField (s : String)
  | messageField (s : String)
  | statusFields (lobby_size num_contributions : Nat)
deriving DecidableEq, Repr

/-- The `IntoResponse` impl for `TryContributeError`: HTTP status code and
JSON body (`StatusCode::BAD_REQUEST` = 400, `StatusCode::OK` = 200). -/
def TryContributeError.into_response : TryContributeError → Nat × Body
  | .UnknownSessionId => (400, .errorField "unknown session id")
  | .RateLimited => (400, .errorField "call came too early. rate limited")
  | .AnotherContributionInProgress =>
      (200, .messageField "another contribution in progress")

/-- Observable side effects of one `try_contribute` call, in program order:
acquiring and releasing the write lock on the shared state, the awaited
`storage.insert_contributor(&uid)` call, the admission
(`set_current_contributor`) and the `tokio::spawn` of the deadline guard. -/
inductive Event
  | lockAcquire
  | lockRelease
  | insertContributor (uid : String)
  | setCurrentContributor (session_id : SessionId)
  | spawnGuard (session_id : SessionId) (uid : String)
deriving DecidableEq, Repr

instance : DecidableEq (Except TryContributeError Unit) := fun a b =>
  match a, b with
  | .ok (), .ok () => isTrue rfl
  | .ok (), .error _ => isFalse (fun h => Except.noConfusion h)
  | .error _, .ok () => isFalse (fun h => Except.noConfusion h)
  | .error e1, .error e2 =>
      match decEq e1 e2 with
      | isTrue h => isTrue (by rw [h])
      | isFalse h => isFalse (fun hh => h (Except.error.inj hh))

/-- Result of one `try_contribute` call: the state left behind the lock, the
handler result (success carries the opaque transcript payload, modelled as
`Unit`), and the trace of events in the order the code performs them. -/
structure TryContributeOutcome where
  state : AppState
  result : Except TryContributeError Unit
  events : List Event
deriving DecidableEq, Repr

/-- The `try_contribute` handler of lobby.rs. `frequency` and `tolerance`
model the constants `LOBBY_CHECKIN_FREQUENCY_SEC` and
`LOBBY_CHECKIN_TOLERANCE_SEC` (their values live outside src); `now` models
`Instant::now()`. `insertContributorOutcome` models the outcome of the
awaited `storage.insert_contributor` call, which the code discards, so the
body never inspects it. The write guard is held from the start of the
function to its end, so `lockRelease` is always the last event. -/
def try_contribute (frequency tolerance : Nat) (now : Nat) (session_id : SessionId)
    (_insertContributorOutcome : Bool) (s : AppState) : TryContributeOutcome :=
  match lobbyGet s.lobby session_id with
  | none =>
      { state := s
        result := .error .UnknownSessionId
        events := [.lockAcquire, .lockRelease] }
  | some info =>
      let min_diff := frequency - tolerance
      if info.is_first_ping_attempt = false ∧ now < info.last_ping_time + min_diff then
        { state := s
          result := .error .RateLimited
          events := [.lockAcquire, .lockRelease] }
      else
        let info2 : SessionInfo :=
          { info with is_first_ping_attempt := false, last_ping_time := now }
        let uid := info2.unique_identifier
        let s1 : AppState := { s with lobby := lobbyUpdate s.lobby session_id info2 }
        if s1.participant.isSome then
          { state := s1
            result := .error .AnotherContributionInProgress
            events := [.lockAcquire, .lockRelease] }
        else
          { state := s1.set_current_contributor session_id
            result := .ok ()
            events := [.lockAcquire, .insertContributor uid, .setCurrentContributor session_id,
                       .spawnGuard session_id uid, .lockRelease] }

/-- Observable side effects of one deadline-guard run (after its sleep): the
awaited `storage.expire_contribution(&uid)` call and the clearing of the
slot. -/
inductive GuardEvent
  | expireContribution (uid : String)
  | clearSlot
deriving DecidableEq, Repr

/-- The body of `remove_participant_on_deadline` after its sleep, as a
function of the state it observes at its check: if the slot is empty or held
by a different session it returns without effect; otherwise it records an
expiry for the guard's own `uid` and clears the slot. -/
def remove_participant_on_deadline (session_id : SessionId) (uid : String)
    (s : AppState) : AppState × List GuardEvent :=
  match s.participant with
  | none => (s, [])
  | some (participant_session_id, _) =>
      if participant_session_id ≠ session_id then (s, [])
      else (s.clear_current_contributor, [.expireContribution uid, .clearSlot])

/-- The guard's first section in isolation (taken under the read lock):
does the slot currently hold exactly the guard's session? -/
def guard_check (session_id : SessionId) (s : AppState) : Bool :=
  match s.participant with
  | none => false
  | some (participant_session_id, _) =>
      if participant_session_id = session_id then true else false

/-- The guard's final section in isolation (taken under a separate write lock
after the expiry call): `state.write().await.clear_current_contributor()`. -/
def guard_clear (s : AppState) : AppState :=
  s.clear_current_contributor

/-- Modelled from the spec: the external completion path (the `/contribute`
endpoint, outside src), which on verified completion clears the
ContributionSlot and increments `num_contributions`. -/
def completeContribution (s : AppState) : AppState :=
  { s with participant := none, num_contributions := s.num_contributions + 1 }

/-- The `status` handler of info.rs: a read-only snapshot returning the lobby
size and the contribution counter; it is paired with the (unchanged) state to
make the absence of mutation statable. -/
structure StatusResponse where
  lobby_size : Nat
  num_contributions : Nat
deriving DecidableEq, Repr

def status (s : AppState) : AppState × StatusResponse :=
  (s, { lobby_size := s.lobby.length, num_contributions := s.num_contributions })

/-- The `IntoResponse` impl for `StatusResponse`: always `StatusCode::OK`. -/
def StatusResponse.into_response (r : StatusResponse) : Nat × Body :=
  (200, .statusFields r.lobby_size r.num_contributions)

/-- Atomic effects other tasks can apply to the shared state while a deadline
guard sits between its read-locked identity check and its write-locked clear:
an admission call with any parameters, or the spec-modelled external
completion path. -/
inductive OtherStep : AppState → AppState → Prop
  | admission (frequency tolerance now : Nat) (session_id : SessionId) (b : Bool)
      (s : AppState) :
      OtherStep s (try_contribute frequency tolerance now session_id b s).state
  | completion (s : AppState) : OtherStep s (completeContribution s)

/-- All state-mutating operations on the coordinator state: admission, a full
deadline-guard run, the spec-modelled completion, and registration of a fresh
session (the out-of-scope identity collaborator inserting a session that is
not the current slot occupant). -/
inductive CoordStep : AppState → AppState → Prop
  | admission (frequency tolerance now : Nat) (session_id : SessionId) (b : Bool)
      (s : AppState) :
      CoordStep s (try_contribute frequency tolerance now session_id b s).state
  | deadlineGuard (session_id : SessionId) (uid : String) (s : AppState) :
      CoordStep s (remove_participant_on_deadline session_id uid s).1
  | completion (s : AppState) : CoordStep s (completeContribution s)
  | register (session_id : SessionId) (info : SessionInfo) (s : AppState)
      (h : ∀ u, s.participant ≠ some (session_id, u)) :
      CoordStep s { s with lobby := (session_id, info) :: s.lobby }

/-- The invariant of spec section 3: no session id occurs both in the lobby and
in the contribution slot. -/
def lobbySlotDisjoint (s : AppState) : Prop :=
  ∀ sid u, s.participant = some (sid, u) → lobbyGet s.lobby sid = none

/-- Ordering of two events in a trace: every occurrence of `e1` comes strictly
before every occurrence of `e2`. -/
def eventsOrdered (es : List Event) (e1 e2 : Event) : Prop :=
  ∀ i j, es.get? i = some e1 → es.get? j = some e2 → i < j

/-- Sample session info for a session that has never attempted admission. -/
def uFresh : SessionInfo :=
  { unique_identifier := "u1", is_first_ping_attempt := true, last_ping_time := 0 }

/-- Sample session info for a session whose last allowed attempt was at 0. -/
def uSeen : SessionInfo :=
  { unique_identifier := "u2", is_first_ping_attempt := false, last_ping_time := 0 }

/-- Sample state with a free slot and two lobby members. -/
def stFree : AppState :=
  { lobby := [(⟨1⟩, uFresh), (⟨2⟩, uSeen)], participant := none, num_contributions := 0 }

/-- Sample state in which session 1 occupies the slot and session 2 waits. -/
def stBusy : AppState :=
  { lobby := [(⟨2⟩, uSeen)], participant := some (⟨1⟩, "u1"), num_contributions := 0 }

/-- A key erased from the lobby is no longer found. -/
theorem lobbyGet_erase_self (l : Lobby) (sid : SessionId) :
    lobbyGet (lobbyErase l sid) sid = none := by
  induction l with
  | nil => rfl
  | cons p rest ih =>
    obtain ⟨k, v⟩ := p
    by_cases h : k = sid
    · simp [lobbyErase, h, ih]
    · simp [lobbyErase, lobbyGet, h, ih]

/-- Updating the value at one key does not make an absent key present. -/
theorem lobbyGet_update_of_none (l : Lobby) (sid k : SessionId) (info : SessionInfo)
    (h : lobbyGet l k = none) : lobbyGet (lobbyUpdate l sid info) k = none := by
  induction l with
  | nil => rfl
  | cons p rest ih =>
    obtain ⟨k2, v⟩ := p
    by_cases h3 : k2 = k
    · simp [lobbyGet, h3] at h
    · simp [lobbyGet, h3] at h
      by_cases h2 : k2 = sid
      · subst h2
        simp [lobbyUpdate, lobbyGet, h3, ih h]
      · simp [lobbyUpdate, lobbyGet, h2, h3, ih h]

/-- Updating a present key stores the new value. -/
theorem lobbyGet_update_self (l : Lobby) (sid : SessionId) (info info2 : SessionInfo)
    (h : lobbyGet l sid = some info) :
    lobbyGet (lobbyUpdate l sid info2) sid = some info2 := by
  induction l with
  | nil => simp [lobbyGet] at h
  | cons p rest ih =>
    obtain ⟨k, v⟩ := p
    by_cases h2 : k = sid
    · simp [lobbyUpdate, lobbyGet, h2]
    · simp [lobbyGet, h2] at h
      simp [lobbyUpdate, lobbyGet, h2, ih h]

/-- Unknown-session branch of try_contribute: the whole call is a no-op with
error UnknownSessionId and the trace holds only the lock events. -/
theorem try_contribute_unknown (frequency tolerance now : Nat) (session_id : SessionId)
    (b : Bool) (s : AppState) (hg : lobbyGet s.lobby session_id = none) :
    try_contribute frequency tolerance now session_id b s =
      { state := s
        result := .error .UnknownSessionId
        events := [.lockAcquire, .lockRelease] } := by
  simp [try_contribute, hg]

/-- Rate-limited branch of try_contribute: the whole call is a no-op with
error RateLimited. -/
theorem try_contribute_rate_limited (frequency tolerance now : Nat)
    (session_id : SessionId) (b : Bool) (s : AppState) (info : SessionInfo)
    (hg : lobbyGet s.lobby session_id = some info)
    (h1 : info.is_first_ping_attempt = false)
    (h2 : now < info.last_ping_time + (frequency - tolerance)) :
    try_contribute frequency tolerance now session_id b s =
      { state := s
        result := .error .RateLimited
        events := [.lockAcquire, .lockRelease] } := by
  simp [try_contribute, hg, h1, h2]

/-- Busy branch of try_contribute: the rate limiter passed so the ping fields
are updated in the lobby, but the slot is occupied and error
AnotherContributionInProgress is returned. -/
theorem try_contribute_busy (frequency tolerance now : Nat) (session_id : SessionId)
    (b : Bool) (s : AppState) (info : SessionInfo)
    (hg : lobbyGet s.lobby session_id = some info)
    (hrl : ¬(info.is_first_ping_attempt = false ∧
      now < info.last_ping_time + (frequency - tolerance)))
    (hocc : s.participant.isSome = true) :
    try_contribute frequency tolerance now session_id b s =
      { state :=
          { s with
            lobby := lobbyUpdate s.lobby session_id
              { info with is_first_ping_attempt := false, last_ping_time := now } }
        result := .error .AnotherContributionInProgress
        events := [.lockAcquire, .lockRelease] } := by
  simp [try_contribute, hg, hrl, hocc]

/-- Success branch of try_contribute: the rate limiter passed and the slot is
free, so the session is granted the slot and the trace holds, in order, the lock
acquisition, the persistence insert, the admission, the guard spawn and the
lock release. -/
theorem try_contribute_success (frequency tolerance now : Nat) (session_id : SessionId)
    (b : Bool) (s : AppState) (info : SessionInfo)
    (hg : lobbyGet s.lobby session_id = some info)
    (hrl : ¬(info.is_first_ping_attempt = false ∧
      now < info.last_ping_time + (frequency - tolerance)))
    (hocc : s.participant = none) :
    try_contribute frequency tolerance now session_id b s =
      { state :=
          { lobby := lobbyErase
              (lobbyUpdate s.lobby session_id
                { info with is_first_ping_attempt := false, last_ping_time := now })
              session_id
            participant := some (session_id, info.unique_identifier)
            num_contributions := s.num_contributions }
        result := .ok ()
        events := [.lockAcquire, .insertContributor info.unique_identifier,
                   .setCurrentContributor session_id, .spawnGuard session_id info.unique_identifier,
                   .lockRelease] } := by
  have hupd := lobbyGet_update_self s.lobby session_id info
    { info with is_first_ping_attempt := false, last_ping_time := now } hg
  simp [try_contribute, hg, hrl, hocc, AppState.set_current_contributor, hupd]

/-- C3: error precedence of try_contribute. A session absent from the lobby
always yields UnknownSessionId; a known session hit by the rate limiter always
yields RateLimited (both regardless of slot occupancy); and
AnotherContributionInProgress is returned exactly for a known, non-rate-limited
session while the slot is occupied. -/
theorem claim_C3 (frequency tolerance now : Nat) (session_id : SessionId) (b : Bool)
    (s : AppState) :
    (lobbyGet s.lobby session_id = none →
      (try_contribute frequency tolerance now session_id b s).result =
        .error .UnknownSessionId) ∧
    (∀ info, lobbyGet s.lobby session_id = some info →
      info.is_first_ping_attempt = false →
      now < info.last_ping_time + (frequency - tolerance) →
      (try_contribute frequency tolerance now session_id b s).result =
        .error .RateLimited) ∧
    ((try_contribute frequency tolerance now session_id b s).result =
        .error .AnotherContributionInProgress ↔
      ∃ info, lobbyGet s.lobby session_id = some info ∧
        ¬(info.is_first_ping_attempt = false ∧
          now < info.last_ping_time + (frequency - tolerance)) ∧
        s.participant.isSome = true) := by
  refine ⟨?_, ?_, ?_, ?_⟩
  · intro hg
    rw [try_contribute_unknown frequency tolerance now session_id b s hg]
  · intro info hg h1 h2
    rw [try_contribute_rate_limited frequency tolerance now session_id b s info hg h1 h2]
  · intro h
    cases hg : lobbyGet s.lobby session_id with
    | none =>
      rw [try_contribute_unknown frequency tolerance now session_id b s hg] at h
      simp at h
    | some info =>
      by_cases hrl : info.is_first_ping_attempt = false ∧
          now < info.last_ping_time + (frequency - tolerance)
      · rw [try_contribute_rate_limited frequency tolerance now session_id b s info hg
          hrl.1 hrl.2] at h
        simp at h
      · cases hocc : s.participant with
        | none =>
          rw [try_contribute_success frequency tolerance now session_id b s info hg
            hrl hocc] at h
          simp at h
        | some p =>
          exact ⟨info, rfl, hrl, rfl⟩
  · rintro ⟨info, hg, hrl, hocc⟩
    rw [try_contribute_busy frequency tolerance now session_id b s info hg hrl hocc]

/-- C3 witness: the three precedence cases at concrete inputs over a state
whose slot is occupied. -/
theorem claim_C3_witness :
    (try_contribute 20 10 0 ⟨9⟩ true stBusy).result = .error .UnknownSessionId ∧
    (try_contribute 20 10 5 ⟨2⟩ true stBusy).result = .error .RateLimited ∧
    (try_contribute 20 10 10 ⟨2⟩ true stBusy).result =
      .error .AnotherContributionInProgress :=
  ⟨(claim_C3 20 10 0 ⟨9⟩ true stBusy).1 (by decide),
   (claim_C3 20 10 5 ⟨2⟩ true stBusy).2.1 uSeen (by decide) rfl (by decide),
   (claim_C3 20 10 10 ⟨2⟩ true stBusy).2.2.mpr
     ⟨uSeen, by decide, by decide, by decide⟩⟩

/-- C4: for a session present in the lobby, try_contribute is RateLimited iff
the session is not on its first attempt and now is strictly below
last_ping_time plus (frequency minus tolerance); in particular a first attempt
is never rate-limited. -/
theorem claim_C4 (frequency tolerance now : Nat) (session_id : SessionId) (b : Bool)
    (s : AppState) (info : SessionInfo)
    (hg : lobbyGet s.lobby session_id = some info) :
    ((try_contribute frequency tolerance now session_id b s).result =
        .error .RateLimited ↔
      info.is_first_ping_attempt = false ∧
        now < info.last_ping_time + (frequency - tolerance)) ∧
    (info.is_first_ping_attempt = true →
      (try_contribute frequency tolerance now session_id b s).result ≠
        .error .RateLimited) := by
  have hiff : (try_contribute frequency tolerance now session_id b s).result =
      .error .RateLimited ↔
      info.is_first_ping_attempt = false ∧
        now < info.last_ping_time + (frequency - tolerance) := by
    constructor
    · intro h
      by_contra hrl
      cases hocc : s.participant with
      | none =>
        rw [try_contribute_success frequency tolerance now session_id b s info hg
          hrl hocc] at h
        simp at h
      | some p =>
        rw [try_contribute_busy frequency tolerance now session_id b s info hg hrl
          (by rw [hocc]; rfl)] at h
        simp at h
    · intro h
      rw [try_contribute_rate_limited frequency tolerance now session_id b s info hg
        h.1 h.2]
  refine ⟨hiff, ?_⟩
  intro hfirst h
  have := hiff.mp h
  rw [hfirst] at this
  simp at this

/-- C4 witness: a non-first attempt 5 seconds after the last allowed attempt
is rate-limited with frequency 20 and tolerance 10. -/
theorem claim_C4_witness :
    (try_contribute 20 10 5 ⟨2⟩ true stBusy).result = .error .RateLimited :=
  (claim_C4 20 10 5 ⟨2⟩ true stBusy uSeen (by decide)).1.mpr ⟨rfl, by decide⟩

/-- C5: ping bookkeeping frame effects. A RateLimited call leaves the whole
state unchanged; a call that passes the rate limiter but finds the slot busy
still stores is_first_ping_attempt = false and last_ping_time = now for the
session before the lock is released. -/
theorem claim_C5 (frequency tolerance now : Nat) (session_id : SessionId) (b : Bool)
    (s : AppState) (info : SessionInfo)
    (hg : lobbyGet s.lobby session_id = some info) :
    ((try_contribute frequency tolerance now session_id b s).result =
        .error .RateLimited →
      (try_contribute frequency tolerance now session_id b s).state = s) ∧
    ((try_contribute frequency tolerance now session_id b s).result =
        .error .AnotherContributionInProgress →
      lobbyGet (try_contribute frequency tolerance now session_id b s).state.lobby
          session_id =
        some { info with is_first_ping_attempt := false, last_ping_time := now }) := by
  by_cases hrl : info.is_first_ping_attempt = false ∧
      now < info.last_ping_time + (frequency - tolerance)
  · rw [try_contribute_rate_limited frequency tolerance now session_id b s info hg
      hrl.1 hrl.2]
    exact ⟨fun _ => rfl, fun h => by simp at h⟩
  · cases hocc : s.participant with
    | none =>
      rw [try_contribute_success frequency tolerance now session_id b s info hg
        hrl hocc]
      exact ⟨fun h => by simp at h, fun h => by simp at h⟩
    | some p =>
      rw [try_contribute_busy frequency tolerance now session_id b s info hg hrl
        (by rw [hocc]; rfl)]
      refine ⟨fun h => by simp at h, fun _ => ?_⟩
      exact lobbyGet_update_self s.lobby session_id info _ hg

/-- C5 witness: the RateLimited no-op and the busy-case ping update at
concrete inputs. -/
theorem claim_C5_witness :
    (try_contribute 20 10 5 ⟨2⟩ true stBusy).state = stBusy ∧
    lobbyGet (try_contribute 20 10 10 ⟨2⟩ true stBusy).state.lobby ⟨2⟩ =
      some { uSeen with is_first_ping_attempt := false, last_ping_time := 10 } :=
  ⟨(claim_C5 20 10 5 ⟨2⟩ true stBusy uSeen (by decide)).1 (by decide),
   (claim_C5 20 10 10 ⟨2⟩ true stBusy uSeen (by decide)).2 (by decide)⟩

/-- C8: the status handler returns exactly the lobby size and the
contribution counter, leaves the state unchanged, and its response always
carries HTTP status 200. -/
theorem claim_C8 (s : AppState) :
    (status s).1 = s ∧
    (status s).2 =
      { lobby_size := s.lobby.length, num_contributions := s.num_contributions } ∧
    (StatusResponse.into_response (status s).2).1 = 200 :=
  ⟨rfl, rfl, rfl⟩

/-- C9: the HTTP mapping of the three try_contribute errors:
UnknownSessionId and RateLimited map to 400 with the documented error bodies,
AnotherContributionInProgress maps to 200 with a message body. -/
theorem claim_C9 :
    TryContributeError.into_response .UnknownSessionId =
      (400, .errorField "unknown session id") ∧
    TryContributeError.into_response .RateLimited =
      (400, .errorField "call came too early. rate limited") ∧
    TryContributeError.into_response .AnotherContributionInProgress =
      (200, .messageField "another contribution in progress") :=
  ⟨rfl, rfl, rfl⟩

/-- C10: a try_contribute call for a session absent from the lobby returns
UnknownSessionId with the state unchanged, and its trace contains no
persistence insert and no guard spawn. -/
theorem claim_C10 (frequency tolerance now : Nat) (session_id : SessionId) (b : Bool)
    (s : AppState) (hg : lobbyGet s.lobby session_id = none) :
    try_contribute frequency tolerance now session_id b s =
      { state := s
        result := .error .UnknownSessionId
        events := [.lockAcquire, .lockRelease] } ∧
    (∀ uid, Event.insertContributor uid ∉
      (try_contribute frequency tolerance now session_id b s).events) ∧
    (∀ sid uid, Event.spawnGuard sid uid ∉
      (try_contribute frequency tolerance now session_id b s).events) := by
  have h := try_contribute_unknown frequency tolerance now session_id b s hg
  refine ⟨h, ?_, ?_⟩ <;> simp [h]

/-- C1: after its sleep, the deadline guard records an expiry for its uid and
clears the slot exactly when the slot is still occupied by the session the
guard was spawned for; if the slot is empty or holds a different session the
guard leaves the state unchanged and performs no effect. -/
theorem claim_C1 (session_id : SessionId) (uid : String) (s : AppState) :
    ((∃ u, s.participant = some (session_id, u)) →
      remove_participant_on_deadline session_id uid s =
        ({ s with participant := none },
         [.expireContribution uid, .clearSlot])) ∧
    ((s.participant = none ∨
        ∃ sid2 u, s.participant = some (sid2, u) ∧ sid2 ≠ session_id) →
      remove_participant_on_deadline session_id uid s = (s, [])) := by
  constructor
  · rintro ⟨u, hp⟩
    simp [remove_participant_on_deadline, hp, AppState.clear_current_contributor]
  · rintro (hp | ⟨sid2, u, hp, hne⟩)
    · simp [remove_participant_on_deadline, hp]
    · simp [remove_participant_on_deadline, hp, hne]

/-- C1 witness: over the sample busy state (slot held by session 1), the guard
for session 1 evicts and records an expiry, while a guard for session 3
performs nothing. -/
theorem claim_C1_witness :
    remove_participant_on_deadline ⟨1⟩ "u1" stBusy =
      ({ stBusy with participant := none },
       [.expireContribution "u1", .clearSlot]) ∧
    remove_participant_on_deadline ⟨3⟩ "zz" stBusy = (stBusy, []) :=
  ⟨(claim_C1 ⟨1⟩ "u1" stBusy).1 ⟨"u1", rfl⟩,
   (claim_C1 ⟨3⟩ "zz" stBusy).2 (Or.inr ⟨⟨1⟩, "u1", rfl, by decide⟩)⟩

/-- C2: every coordinator step preserves disjointness of lobby and slot, and a
successful try_contribute, in its single atomic admission step, leaves the
session absent from the lobby and present (with its uid) in the slot. -/
theorem claim_C2 :
    (∀ s s2, CoordStep s s2 → lobbySlotDisjoint s → lobbySlotDisjoint s2) ∧
    (∀ frequency tolerance now session_id b s,
      (try_contribute frequency tolerance now session_id b s).result = .ok () →
      lobbyGet (try_contribute frequency tolerance now session_id b s).state.lobby
          session_id = none ∧
      ∃ u, (try_contribute frequency tolerance now session_id b s).state.participant =
        some (session_id, u)) := by
  constructor
  · intro s s2 hstep hd
    cases hstep with
    | admission frequency tolerance now session_id b s =>
      cases hg : lobbyGet s.lobby session_id with
      | none =>
        rw [try_contribute_unknown frequency tolerance now session_id b s hg]
        exact hd
      | some info =>
        by_cases hrl : info.is_first_ping_attempt = false ∧
            now < info.last_ping_time + (frequency - tolerance)
        · rw [try_contribute_rate_limited frequency tolerance now session_id b s info hg
            hrl.1 hrl.2]
          exact hd
        · cases hocc : s.participant with
          | none =>
            rw [try_contribute_success frequency tolerance now session_id b s info hg
              hrl hocc]
            intro sid2 u hp
            simp only [Option.some.injEq, Prod.mk.injEq] at hp
            obtain ⟨h1, _⟩ := hp
            subst h1
            exact lobbyGet_erase_self _ _
          | some p =>
            rw [try_contribute_busy frequency tolerance now session_id b s info hg hrl
              (by rw [hocc]; rfl)]
            intro sid2 u hp
            exact lobbyGet_update_of_none _ _ _ _ (hd sid2 u hp)
    | deadlineGuard session_id uid s =>
      cases hp : s.participant with
      | none =>
        simp [remove_participant_on_deadline, hp]
        exact hd
      | some p =>
        obtain ⟨psid, pu⟩ := p
        by_cases he : psid = session_id
        · subst he
          simp [remove_participant_on_deadline, hp, AppState.clear_current_contributor]
          intro sid2 u hp2
          simp at hp2
        · simp [remove_participant_on_deadline, hp, he]
          exact hd
    | completion s =>
      intro sid2 u hp
      simp [completeContribution] at hp
    | register session_id info s h =>
      intro sid2 u hp
      by_cases he : session_id = sid2
      · subst he
        exact absurd hp (h u)
      · simp only [lobbyGet, he, if_false]
        exact hd sid2 u hp
  · intro frequency tolerance now session_id b s hok
    cases hg : lobbyGet s.lobby session_id with
    | none =>
      rw [try_contribute_unknown frequency tolerance now session_id b s hg] at hok
      simp at hok
    | some info =>
      by_cases hrl : info.is_first_ping_attempt = false ∧
          now < info.last_ping_time + (frequency - tolerance)
      · rw [try_contribute_rate_limited frequency tolerance now session_id b s info hg
          hrl.1 hrl.2] at hok
        simp at hok
      · cases hocc : s.participant with
        | none =>
          rw [try_contribute_success frequency tolerance now session_id b s info hg
            hrl hocc]
          exact ⟨lobbyGet_erase_self _ _, info.unique_identifier, rfl⟩
        | some p =>
          rw [try_contribute_busy frequency tolerance now session_id b s info hg hrl
            (by rw [hocc]; rfl)] at hok
          simp at hok

/-- C2 witness: disjointness is preserved across the concrete admission step
from the sample free state, and that admission removes session 1 from the
lobby while placing it in the slot. -/
theorem claim_C2_witness :
    lobbySlotDisjoint (try_contribute 20 10 0 ⟨1⟩ true stFree).state ∧
    (lobbyGet (try_contribute 20 10 0 ⟨1⟩ true stFree).state.lobby ⟨1⟩ = none ∧
      ∃ u, (try_contribute 20 10 0 ⟨1⟩ true stFree).state.participant =
        some (⟨1⟩, u)) :=
  ⟨claim_C2.1 stFree _ (CoordStep.admission 20 10 0 ⟨1⟩ true stFree)
     (fun sid u hp => by simp [stFree] at hp),
   claim_C2.2 20 10 0 ⟨1⟩ true stFree (by decide)⟩

/-- C6 counterexample: the claim that in a successful try_contribute the
persistence insert happens after the admission event and after the lock
release is false: at a concrete successful call the trace places
insert_contributor before the admission and before the lock release. -/
theorem claim_C6_counterexample :
    ¬ (∀ frequency tolerance now session_id b s,
        (try_contribute frequency tolerance now session_id b s).result = .ok () →
        ∀ uid,
          Event.insertContributor uid ∈
            (try_contribute frequency tolerance now session_id b s).events →
          eventsOrdered (try_contribute frequency tolerance now session_id b s).events
              (.setCurrentContributor session_id) (.insertContributor uid) ∧
          eventsOrdered (try_contribute frequency tolerance now session_id b s).events
              .lockRelease (.insertContributor uid)) := by
  intro h
  have hc := h 20 10 0 ⟨1⟩ true stFree (by decide) "u1" (by decide)
  have h2 := hc.1 2 1 (by decide) (by decide)
  omega

/-- C6 amended: in every successful try_contribute the awaited persistence
insert happens before the admission event and inside the exclusive section
(between lock acquisition and lock release), and the call's discarded outcome
never influences the resulting state or result. -/
theorem claim_C6_amended (frequency tolerance now : Nat) (session_id : SessionId)
    (b b2 : Bool) (s : AppState)
    (hok : (try_contribute frequency tolerance now session_id b s).result = .ok ()) :
    (∃ uid, (try_contribute frequency tolerance now session_id b s).events =
      [.lockAcquire, .insertContributor uid, .setCurrentContributor session_id,
       .spawnGuard session_id uid, .lockRelease]) ∧
    try_contribute frequency tolerance now session_id b s =
      try_contribute frequency tolerance now session_id b2 s := by
  refine ⟨?_, rfl⟩
  cases hg : lobbyGet s.lobby session_id with
  | none =>
    rw [try_contribute_unknown frequency tolerance now session_id b s hg] at hok
    simp at hok
  | some info =>
    by_cases hrl : info.is_first_ping_attempt = false ∧
        now < info.last_ping_time + (frequency - tolerance)
    · rw [try_contribute_rate_limited frequency tolerance now session_id b s info hg
        hrl.1 hrl.2] at hok
      simp at hok
    · cases hocc : s.participant with
      | none =>
        rw [try_contribute_success frequency tolerance now session_id b s info hg
          hrl hocc]
        exact ⟨info.unique_identifier, rfl⟩
      | some p =>
        rw [try_contribute_busy frequency tolerance now session_id b s info hg hrl
          (by rw [hocc]; rfl)] at hok
        simp at hok

/-- C6 amended witness: the concrete successful admission of session 1 from
the sample free state. -/
theorem claim_C6_amended_witness :
    ∃ uid, (try_contribute 20 10 0 ⟨1⟩ true stFree).events =
      [.lockAcquire, .insertContributor uid, .setCurrentContributor ⟨1⟩,
       .spawnGuard ⟨1⟩ uid, .lockRelease] :=
  (claim_C6_amended 20 10 0 ⟨1⟩ true false stFree (by decide)).1

/-- C7 counterexample: the claim that no other task can change the slot
occupant between the guard's identity check and its clearing is false: from
the sample busy state (guard check for session 1 passes), a completion step
followed by an admission of session 2 — both possible because the check and
the clear are taken under two separate lock acquisitions — changes the
occupant. -/
theorem claim_C7_counterexample :
    ¬ (∀ (session_id : SessionId) (s s2 : AppState),
        guard_check session_id s = true →
        Relation.ReflTransGen OtherStep s s2 →
        s2.participant = s.participant) := by
  intro h
  have hchain : Relation.ReflTransGen OtherStep stBusy
      (try_contribute 20 10 10 ⟨2⟩ true (completeContribution stBusy)).state :=
    Relation.ReflTransGen.tail
      (Relation.ReflTransGen.single (OtherStep.completion stBusy))
      (OtherStep.admission 20 10 10 ⟨2⟩ true (completeContribution stBusy))
  have hc := h ⟨1⟩ stBusy _ (by decide) hchain
  exact absurd hc (by decide)

/-- C7 amended: the guard's identity check and its clearing are taken under
two separate access sections; when the slot occupant is unchanged between
them, the clear empties exactly the checked session's slot and touches
nothing else. -/
theorem claim_C7_amended (session_id : SessionId) (s s2 : AppState)
    (hchk : guard_check session_id s = true)
    (hsame : s2.participant = s.participant) :
    (∃ u, s2.participant = some (session_id, u)) ∧
    (guard_clear s2).participant = none ∧
    (guard_clear s2).lobby = s2.lobby ∧
    (guard_clear s2).num_contributions = s2.num_contributions := by
  refine ⟨?_, rfl, rfl, rfl⟩
  cases hp : s.participant with
  | none => simp [guard_check, hp] at hchk
  | some p =>
    obtain ⟨psid, pu⟩ := p
    by_cases he : psid = session_id
    · subst he
      exact ⟨pu, by rw [hsame, hp]⟩
    · simp [guard_check, hp, he] at hchk

/-- C7 amended witness: the guard for session 1 over the sample busy state,
with no interference between check and clear. -/
theorem claim_C7_amended_witness :
    (∃ u, stBusy.participant = some (⟨1⟩, u)) ∧
    (guard_clear stBusy).participant = none ∧
    (guard_clear stBusy).lobby = stBusy.lobby ∧
    (guard_clear stBusy).num_contributions = stBusy.num_contributions :=
  claim_C7_amended ⟨1⟩ stBusy stBusy (by decide) rfl

/-- C10 witness: an unknown session over the sample busy state. -/
theorem claim_C10_witness :
    try_contribute 20 10 0 ⟨9⟩ true stBusy =
      { state := stBusy
        result := .error .UnknownSessionId
        events := [.lockAcquire, .lockRelease] } :=
  (claim_C10 20 10 0 ⟨9⟩ true stBusy (by decide)).1

end KzgSequencer
